import Mathlib

/-!
Verification of the robothon-byod diagnostic test suite.

This file embeds, in Lean, the scoring algorithms and the test-suite
orchestration state of the repository and proves (or refutes) the frozen
claims about them.

Conventions of the embedding:
* JavaScript `number` coordinates and scores are modelled as exact
  rationals (`ℚ`); `Math.sqrt` forces the deviation pipeline into `ℝ`
  (`Real.sqrt`), so those few definitions are noncomputable.  A parallel
  squared-distance computation over `ℚ` is provided, with a proven bridge
  lemma, so that concrete runs can still be evaluated.
* `Math.round x` is `⌊x + 1/2⌋` (round half towards +∞), the exact JS
  semantics on the values that occur here.
* The JS accumulator `let minDistance = Infinity; … Math.min …` is
  modelled with `Option`: `none` plays the role of `Infinity` (and, as in
  JS, `Infinity < 50` is false, i.e. `none` never passes the filter).
-/

namespace Robothon

/-- Trace point as captured by the canvas: `{x, y, timestamp}`
(`shape-tracing-test.tsx`). -/
structure TracePoint where
  x : ℚ
  y : ℚ
  timestamp : ℤ
  deriving DecidableEq, Repr

/-- The two shapes supported by `ShapeTracingTest`. -/
inductive Shape where
  | square
  | diamond
  deriving DecidableEq, Repr

/-- Canvas constant `shapeSize = 180` (`shape-tracing-test.tsx`). -/
def shapeSize : ℚ := 180

/-- Canvas constant `centerX = 175`. -/
def centerX : ℚ := 175

/-- Canvas constant `centerY = 175`. -/
def centerY : ℚ := 175

/-- `numPoints = 100` inside `generateIdealShapePoints`. -/
def numPoints : ℕ := 100

/-- `generateIdealShapePoints`: samples the ideal outline of the requested
shape, `numPoints / 4` points per edge, exactly as the four `for` loops of
`shape-tracing-test.tsx` produce them. -/
def generateIdealShapePoints (shape : Shape) : List TracePoint :=
  let halfSize : ℚ := shapeSize / 2
  let quarter : ℕ := numPoints / 4
  match shape with
  | .square =>
      ((List.range quarter).map (fun i =>
        ⟨centerX - halfSize + ((i : ℚ) / (quarter : ℚ)) * shapeSize,
         centerY - halfSize, 0⟩))
      ++ ((List.range quarter).map (fun i =>
        ⟨centerX + halfSize,
         centerY - halfSize + ((i : ℚ) / (quarter : ℚ)) * shapeSize, 0⟩))
      ++ ((List.range quarter).map (fun i =>
        ⟨centerX + halfSize - ((i : ℚ) / (quarter : ℚ)) * shapeSize,
         centerY + halfSize, 0⟩))
      ++ ((List.range quarter).map (fun i =>
        ⟨centerX - halfSize,
         centerY + halfSize - ((i : ℚ) / (quarter : ℚ)) * shapeSize, 0⟩))
  | .diamond =>
      ((List.range quarter).map (fun i =>
        ⟨centerX + ((i : ℚ) / (quarter : ℚ)) * halfSize,
         centerY - halfSize + ((i : ℚ) / (quarter : ℚ)) * halfSize, 0⟩))
      ++ ((List.range quarter).map (fun i =>
        ⟨centerX + halfSize - ((i : ℚ) / (quarter : ℚ)) * halfSize,
         centerY + ((i : ℚ) / (quarter : ℚ)) * halfSize, 0⟩))
      ++ ((List.range quarter).map (fun i =>
        ⟨centerX - ((i : ℚ) / (quarter : ℚ)) * halfSize,
         centerY + halfSize - ((i : ℚ) / (quarter : ℚ)) * halfSize, 0⟩))
      ++ ((List.range quarter).map (fun i =>
        ⟨centerX - halfSize + ((i : ℚ) / (quarter : ℚ)) * halfSize,
         centerY - ((i : ℚ) / (quarter : ℚ)) * halfSize, 0⟩))

/-- Squared Euclidean distance between two trace points; the argument of
the `Math.sqrt` call in `calculateAccuracy` / `calculateTotalDistance`. -/
def d2 (p q : TracePoint) : ℚ :=
  (p.x - q.x) ^ 2 + (p.y - q.y) ^ 2

/-- `Math.sqrt(Math.pow(ux - ix, 2) + Math.pow(uy - iy, 2))`: the
Euclidean distance used throughout the scoring code. -/
noncomputable def jsDist (p q : TracePoint) : ℝ :=
  Real.sqrt ((d2 p q : ℚ) : ℝ)

/-- The inner loop of `calculateAccuracy`: starting from `Infinity`
(modelled as `none`), fold `Math.min` with the distance to every ideal
point. -/
noncomputable def minDistance (userPoint : TracePoint)
    (idealPoints : List TracePoint) : Option ℝ :=
  idealPoints.foldl (fun m idealPoint =>
    some (match m with
      | none => jsDist userPoint idealPoint
      | some v => min v (jsDist userPoint idealPoint))) none

/-- Squared-distance companion of `minDistance`, over `ℚ`; used to
evaluate concrete runs (the bridge is `minDistance_eq_sqrt`). -/
def minDistanceSq (userPoint : TracePoint)
    (idealPoints : List TracePoint) : Option ℚ :=
  idealPoints.foldl (fun m idealPoint =>
    some (match m with
      | none => d2 userPoint idealPoint
      | some v => min v (d2 userPoint idealPoint))) none

/-- JS `Math.round`: round half towards positive infinity. -/
noncomputable def jsRound (x : ℝ) : ℤ := ⌊x + 1 / 2⌋

open Classical in
/-- The surviving deviations of `calculateAccuracy`: for each user point,
its minimum distance to the ideal points, kept only when strictly below
the 50 px radius (`if (minDistance < 50)` in the source; the `Infinity`
accumulator, `none` here, never passes the test, as in JS). -/
noncomputable def survivingDeviations (userPoints idealPoints : List TracePoint) :
    List ℝ :=
  userPoints.filterMap fun userPoint =>
    match minDistance userPoint idealPoints with
    | some d => if d < 50 then some d else none
    | none => none

/-- `calculateAccuracy` of `shape-tracing-test.tsx`.  The source
accumulates `totalDeviation` and `validPoints` in a `forEach`; here the
surviving deviations are collected as a list, whose sum and length are
those two accumulators. -/
noncomputable def calculateAccuracy (userPoints idealPoints : List TracePoint) :
    ℤ :=
  if userPoints.length = 0 then 0
  else
    let devs := survivingDeviations userPoints idealPoints
    if devs.length = 0 then 0
    else
      let averageDeviation : ℝ := devs.sum / (devs.length : ℝ)
      let maxAcceptableDeviation : ℝ := 30
      jsRound (max 0 (100 - averageDeviation / maxAcceptableDeviation * 100))

/-- `calculateTotalDistance`: the loop `for i in [1, n)` summing the
distance from `points[i-1]` to `points[i]`, written as a sum over the
list of consecutive pairs. -/
noncomputable def calculateTotalDistance (points : List TracePoint) : ℝ :=
  ((points.zip points.tail).map fun pq => jsDist pq.2 pq.1).sum

open Classical in
/-- Modelled from the claim's words (claim C1 / spec §4.2 step 3): a trace
point survives filtering when its minimum distance *does not exceed* the
acceptance radius, i.e. `d ≤ 50` — where the code tests `d < 50`.  Used
only to compare the claim's filtering rule with the code's. -/
noncomputable def inclusiveSurvivingDeviations
    (userPoints idealPoints : List TracePoint) : List ℝ :=
  userPoints.filterMap fun userPoint =>
    match minDistance userPoint idealPoints with
    | some d => if d ≤ 50 then some d else none
    | none => none

/-- Modelled from the claim's words: `calculateAccuracy` with the claim's
inclusive (`≤ 50`) filter in place of the code's strict one. -/
noncomputable def inclusiveAccuracy (userPoints idealPoints : List TracePoint) :
    ℤ :=
  if userPoints.length = 0 then 0
  else
    let devs := inclusiveSurvivingDeviations userPoints idealPoints
    if devs.length = 0 then 0
    else
      let averageDeviation : ℝ := devs.sum / (devs.length : ℝ)
      let maxAcceptableDeviation : ℝ := 30
      jsRound (max 0 (100 - averageDeviation / maxAcceptableDeviation * 100))

end Robothon

namespace Robothon

/-- The real-valued minimum distance is the square root of the
rational-valued minimum squared distance. -/
theorem minDistance_eq_sqrt (p : TracePoint) (l : List TracePoint) :
    minDistance p l = (minDistanceSq p l).map fun r : ℚ => Real.sqrt (r : ℝ) := by
  have sqrtMono : Monotone Real.sqrt := fun a b h => Real.sqrt_le_sqrt h
  unfold minDistance minDistanceSq
  suffices h : ∀ m : Option ℚ,
      l.foldl (fun m idealPoint =>
        some (match m with
          | none => jsDist p idealPoint
          | some v => min v (jsDist p idealPoint)))
        (m.map fun r : ℚ => Real.sqrt (r : ℝ)) =
      (l.foldl (fun m idealPoint =>
        some (match m with
          | none => d2 p idealPoint
          | some v => min v (d2 p idealPoint))) m).map
        (fun r : ℚ => Real.sqrt (r : ℝ)) by
    simpa using h none
  induction l with
  | nil => intro m; rfl
  | cons q rest ih =>
      intro m
      simp only [List.foldl_cons]
      rw [show (some (match m.map (fun r : ℚ => Real.sqrt (r : ℝ)) with
            | none => jsDist p q
            | some v => min v (jsDist p q))) =
          (Option.map (fun r : ℚ => Real.sqrt (r : ℝ))
            (some (match m with
              | none => d2 p q
              | some v => min v (d2 p q)))) from ?_]
      · exact ih _
      · cases m with
        | none => rfl
        | some v =>
            show some (min (Real.sqrt (v : ℝ)) (jsDist p q)) =
              some (Real.sqrt ((min v (d2 p q) : ℚ) : ℝ))
            rw [Rat.cast_min, sqrtMono.map_min]
            rfl

/-- Every value produced by `minDistance` is a square root, hence
nonnegative. -/
theorem minDistance_nonneg (p : TracePoint) (l : List TracePoint) (d : ℝ)
    (h : minDistance p l = some d) : 0 ≤ d := by
  rw [minDistance_eq_sqrt] at h
  cases hq : minDistanceSq p l with
  | none => rw [hq] at h; exact absurd h (by simp)
  | some r =>
      rw [hq] at h
      have hd : Real.sqrt (r : ℝ) = d := by injection h
      rw [← hd]
      exact Real.sqrt_nonneg _

/-- Claim C8: for each supported shape the ideal-shape sampler returns
exactly the requested `numPoints = 100` sample points.  (Determinism —
identical arguments give the identical sequence — holds definitionally
for the pure function `generateIdealShapePoints`.) -/
theorem C8_generateIdealShapePoints_count :
    (∀ shape : Shape, (generateIdealShapePoints shape).length = numPoints) ∧
    numPoints = 100 := by
  refine ⟨fun shape => ?_, rfl⟩
  cases shape <;> simp [generateIdealShapePoints, numPoints]

end Robothon

namespace Robothon

/-- Claim C9: scoring an empty trace yields accuracy 0 and total distance
0, a single-point trace has total distance 0, and the total distance obeys
the consecutive-pair recurrence of the source loop. -/
theorem C9_empty_trace_and_total_distance :
    (∀ shape : Shape,
        calculateAccuracy [] (generateIdealShapePoints shape) = 0) ∧
    calculateTotalDistance [] = 0 ∧
    (∀ p : TracePoint, calculateTotalDistance [p] = 0) ∧
    (∀ p q : TracePoint, ∀ rest : List TracePoint,
        calculateTotalDistance (p :: q :: rest) =
          jsDist q p + calculateTotalDistance (q :: rest)) := by
  refine ⟨fun shape => ?_, ?_, fun p => ?_, fun p q rest => ?_⟩
  · simp [calculateAccuracy]
  · simp [calculateTotalDistance]
  · simp [calculateTotalDistance]
  · simp [calculateTotalDistance]

/-- Unfolding of `calculateAccuracy` with its `let`s spelled out. -/
theorem calculateAccuracy_eq (u i : List TracePoint) :
    calculateAccuracy u i =
      if u.length = 0 then 0
      else if (survivingDeviations u i).length = 0 then 0
      else jsRound (max 0 (100 -
        (survivingDeviations u i).sum / ((survivingDeviations u i).length : ℝ) /
          30 * 100)) := rfl

/-- `survivingDeviations` distributes over trace concatenation. -/
theorem survivingDeviations_append (u v i : List TracePoint) :
    survivingDeviations (u ++ v) i =
      survivingDeviations u i ++ survivingDeviations v i :=
  List.filterMap_append u v _

/-- A point whose minimum distance is 50 px or more contributes no
surviving deviation. -/
theorem survivingDeviations_far (p : TracePoint) (i : List TracePoint)
    (h : ∀ d : ℝ, minDistance p i = some d → 50 ≤ d) :
    survivingDeviations [p] i = [] := by
  unfold survivingDeviations
  cases hm : minDistance p i with
  | none => simp [hm]
  | some d => simp [hm, if_neg (not_lt.mpr (h d hm))]

/-- Surviving deviations are nonnegative (they are square roots). -/
theorem survivingDeviations_nonneg (u i : List TracePoint) :
    ∀ x ∈ survivingDeviations u i, 0 ≤ x := by
  intro x hx
  unfold survivingDeviations at hx
  rw [List.mem_filterMap] at hx
  obtain ⟨p, _, hpx⟩ := hx
  cases hm : minDistance p i with
  | none => rw [hm] at hpx; exact absurd hpx (by simp)
  | some d =>
      rw [hm] at hpx
      simp only at hpx
      by_cases hd : d < 50
      · rw [if_pos hd] at hpx
        obtain rfl : d = x := by injection hpx
        exact minDistance_nonneg p i _ hm
      · rw [if_neg hd] at hpx
        cases hpx

/-- Bounds for `Math.round` on an argument already in `[0, 100]`. -/
theorem jsRound_mem_Icc (t : ℝ) (h0 : 0 ≤ t) (h100 : t ≤ 100) :
    0 ≤ jsRound t ∧ jsRound t ≤ 100 := by
  unfold jsRound
  constructor
  · exact Int.le_floor.mpr (by push_cast; linarith)
  · have h : ⌊t + 1 / 2⌋ < (101 : ℤ) :=
      Int.floor_lt.mpr (by push_cast; linarith)
    omega

end Robothon

namespace Robothon

/-- Claim C1 (amended): against the ideal sample of either shape, the
accuracy is computed only from trace points whose minimum distance is
*strictly below* the 50 px acceptance radius — appending a point at
distance 50 px or more changes nothing — it is 0 when no point survives,
otherwise `round(max(0, 100 - (mean surviving deviation / 30) * 100))`,
and it always lies in `[0, 100]`. -/
theorem C1_calculateAccuracy_spec (user : List TracePoint) (shape : Shape) :
    (∀ p : TracePoint,
        (∀ d : ℝ, minDistance p (generateIdealShapePoints shape) = some d →
          50 ≤ d) →
        calculateAccuracy (user ++ [p]) (generateIdealShapePoints shape) =
          calculateAccuracy user (generateIdealShapePoints shape)) ∧
    (survivingDeviations user (generateIdealShapePoints shape) = [] →
        calculateAccuracy user (generateIdealShapePoints shape) = 0) ∧
    (survivingDeviations user (generateIdealShapePoints shape) ≠ [] →
        calculateAccuracy user (generateIdealShapePoints shape) =
          jsRound (max 0 (100 -
            (survivingDeviations user (generateIdealShapePoints shape)).sum /
              ((survivingDeviations user
                  (generateIdealShapePoints shape)).length : ℝ) / 30 * 100))) ∧
    0 ≤ calculateAccuracy user (generateIdealShapePoints shape) ∧
    calculateAccuracy user (generateIdealShapePoints shape) ≤ 100 := by
  set ideal := generateIdealShapePoints shape with hideal
  refine ⟨?_, ?_, ?_, ?_⟩
  · intro p hp
    have hfar : survivingDeviations [p] ideal = [] :=
      survivingDeviations_far p ideal hp
    have happ : survivingDeviations (user ++ [p]) ideal =
        survivingDeviations user ideal := by
      rw [survivingDeviations_append, hfar, List.append_nil]
    rw [calculateAccuracy_eq, calculateAccuracy_eq, happ]
    cases user with
    | nil =>
        have hnil : survivingDeviations ([] : List TracePoint) ideal = [] := rfl
        simp [hnil]
    | cons a l => simp
  · intro hdev
    rw [calculateAccuracy_eq, hdev]
    simp
  · intro hdev
    have huser : user.length ≠ 0 := by
      intro hu
      rw [List.length_eq_zero] at hu
      subst hu
      exact hdev rfl
    have hlen : (survivingDeviations user ideal).length ≠ 0 := by
      simpa [List.length_eq_zero] using hdev
    rw [calculateAccuracy_eq, if_neg huser, if_neg hlen]
  · rw [calculateAccuracy_eq]
    by_cases hu : user.length = 0
    · simp [hu]
    · rw [if_neg hu]
      by_cases hd : (survivingDeviations user ideal).length = 0
      · simp [hd]
      · rw [if_neg hd]
        have hsum : 0 ≤ (survivingDeviations user ideal).sum :=
          List.sum_nonneg (survivingDeviations_nonneg user ideal)
        have havg : 0 ≤ (survivingDeviations user ideal).sum /
            ((survivingDeviations user ideal).length : ℝ) / 30 * 100 := by
          positivity
        exact jsRound_mem_Icc _ (le_max_left _ _)
          (max_le (by norm_num) (by linarith))

end Robothon

namespace Robothon

/-- The point `(85, 85)` — the square's top-left corner — is on the ideal
square sample: its minimum squared distance is 0. -/
theorem minDistanceSq_corner :
    minDistanceSq ⟨85, 85, 0⟩ (generateIdealShapePoints .square) = some 0 := by
  norm_num [minDistanceSq, generateIdealShapePoints, d2, numPoints, shapeSize,
    centerX, centerY, List.range_succ, min_def]

/-- The point `(85, 35)` sits exactly 50 px above the square's top-left
corner: its minimum squared distance is 2500. -/
theorem minDistanceSq_boundary :
    minDistanceSq ⟨85, 35, 0⟩ (generateIdealShapePoints .square) = some 2500 := by
  norm_num [minDistanceSq, generateIdealShapePoints, d2, numPoints, shapeSize,
    centerX, centerY, List.range_succ, min_def]

/-- Real-valued form of `minDistanceSq_corner`. -/
theorem minDistance_corner :
    minDistance ⟨85, 85, 0⟩ (generateIdealShapePoints .square) = some 0 := by
  rw [minDistance_eq_sqrt, minDistanceSq_corner]
  norm_num

/-- Real-valued form of `minDistanceSq_boundary`: the minimum distance is
exactly 50. -/
theorem minDistance_boundary :
    minDistance ⟨85, 35, 0⟩ (generateIdealShapePoints .square) = some 50 := by
  rw [minDistance_eq_sqrt, minDistanceSq_boundary]
  have h : Real.sqrt (2500 : ℝ) = 50 := by
    rw [show (2500 : ℝ) = (50 : ℝ) ^ 2 by norm_num]
    exact Real.sqrt_sq (by norm_num)
  simp [h]

end Robothon

namespace Robothon

/-- Unfolding of `inclusiveAccuracy` with its `let`s spelled out. -/
theorem inclusiveAccuracy_eq (u i : List TracePoint) :
    inclusiveAccuracy u i =
      if u.length = 0 then 0
      else if (inclusiveSurvivingDeviations u i).length = 0 then 0
      else jsRound (max 0 (100 -
        (inclusiveSurvivingDeviations u i).sum /
          ((inclusiveSurvivingDeviations u i).length : ℝ) / 30 * 100)) := rfl

/-- Under the code's strict filter, only the corner point (deviation 0)
of the two-point example trace survives. -/
theorem survivors_strict :
    survivingDeviations [⟨85, 85, 0⟩, ⟨85, 35, 0⟩]
      (generateIdealShapePoints .square) = [0] := by
  simp only [survivingDeviations, List.filterMap_cons, List.filterMap_nil,
    minDistance_corner, minDistance_boundary]
  norm_num

/-- Under the claim's inclusive filter, both example points survive, the
boundary one with deviation exactly 50. -/
theorem survivors_inclusive :
    inclusiveSurvivingDeviations [⟨85, 85, 0⟩, ⟨85, 35, 0⟩]
      (generateIdealShapePoints .square) = [0, 50] := by
  simp only [inclusiveSurvivingDeviations, List.filterMap_cons, List.filterMap_nil,
    minDistance_corner, minDistance_boundary]
  norm_num

/-- Witness for `C1_calculateAccuracy_spec`: the single-point trace at
`(85, 35)` has minimum distance exactly 50, survives nothing, and scores
accuracy 0. -/
theorem C1_calculateAccuracy_spec_witness :
    calculateAccuracy [⟨85, 35, 0⟩] (generateIdealShapePoints .square) = 0 := by
  apply (C1_calculateAccuracy_spec [⟨85, 35, 0⟩] .square).2.1
  apply survivingDeviations_far
  intro d hd
  rw [minDistance_boundary] at hd
  injection hd with h
  exact le_of_eq h

/-- Claim C1 counterexample: on the trace `[(85,85), (85,35)]` against
the square, the second point's minimum distance is exactly the 50 px
radius.  The code's strict `< 50` filter discards it and scores 100; the
claim's "does not exceed" (`≤ 50`) filter keeps it and prescribes 17.
The claim's formula therefore disagrees with the code at this input. -/
theorem C1_counterexample :
    calculateAccuracy [⟨85, 85, 0⟩, ⟨85, 35, 0⟩]
      (generateIdealShapePoints .square) = 100 ∧
    inclusiveAccuracy [⟨85, 85, 0⟩, ⟨85, 35, 0⟩]
      (generateIdealShapePoints .square) = 17 := by
  constructor
  · rw [calculateAccuracy_eq, survivors_strict]
    norm_num [jsRound, max_def, Int.floor_eq_iff]
  · rw [inclusiveAccuracy_eq, survivors_inclusive]
    norm_num [jsRound, max_def, Int.floor_eq_iff]

end Robothon

namespace Robothon

/-- Touch point of the basic touchscreen test: `{id, x, y, timestamp}`. -/
structure TouchPoint where
  id : ℤ
  x : ℚ
  y : ℚ
  timestamp : ℤ
  deriving DecidableEq, Repr

/-- `TouchTestResult` as shared by the touch and report components. -/
structure TouchTestResult where
  multiTouchSupported : Bool
  maxSimultaneousTouches : ℤ
  averageResponseTime : ℚ
  totalTouches : ℤ
  testDuration : ℤ
  touchPoints : List TouchPoint
  deriving DecidableEq, Repr

/-- `ShapeTracingResult` as carried by the report components; the shape
tag is the duck-typed string literal of the source interfaces. -/
structure ShapeTracingResult where
  shape : String
  accuracy : ℚ
  completionTime : ℤ
  tracePoints : List TracePoint
  totalDistance : ℚ
  deviationScore : ℚ
  deriving DecidableEq, Repr

/-- `DisplayDefectResult`. -/
structure DisplayDefectResult where
  testCompleted : Bool
  duration : ℤ
  timestamp : ℤ
  deriving DecidableEq, Repr

/-- `ProximitySensorResult`. -/
structure ProximitySensorResult where
  sensorActivated : Bool
  activationTime : ℤ
  testDuration : ℤ
  success : Bool
  deriving DecidableEq, Repr

/-- `Math.round` on a rational value (same convention as `jsRound`). -/
def ratRound (x : ℚ) : ℤ := ⌊x + 1 / 2⌋

end Robothon

namespace Robothon.DiagnosticReport

/-- `EnhancedTouchTestResult` of the diagnostic-report source (the
variant whose second tracing is `circleTracing`). -/
structure EnhancedTouchTestResult where
  basicTouch : TouchTestResult
  squareTracing : ShapeTracingResult
  circleTracing : ShapeTracingResult
  overallScore : ℤ
  deriving DecidableEq, Repr

/-- `TestSuiteResult` consumed by the report: optional per-category
results. -/
structure TestSuiteResult where
  touchscreen : Option EnhancedTouchTestResult
  displayDefect : Option DisplayDefectResult
  proximitySensor : Option ProximitySensorResult
  deriving DecidableEq, Repr

/-- The touchscreen block of `calculateOverallScore` in the report: the
source starts `touchScore` at 0 and adds 20 for each criterion that
holds; written as the sum of the five conditional increments. -/
def touchCategoryScore (t : EnhancedTouchTestResult) : ℤ :=
  (if t.basicTouch.multiTouchSupported then 20 else 0) +
  (if t.basicTouch.averageResponseTime < 100 then 20 else 0) +
  (if t.basicTouch.maxSimultaneousTouches ≥ 2 then 20 else 0) +
  (if t.squareTracing.accuracy ≥ 70 then 20 else 0) +
  (if t.circleTracing.accuracy ≥ 70 then 20 else 0)

/-- `calculateOverallScore` of the diagnostic report: fold each present
category into `totalScore`/`testCount`, then round the mean. -/
def calculateOverallScore (r : TestSuiteResult) : ℤ :=
  let acc : ℤ × ℤ := (0, 0)
  let acc : ℤ × ℤ := match r.touchscreen with
    | some t => (acc.1 + touchCategoryScore t, acc.2 + 1)
    | none => acc
  let acc : ℤ × ℤ := match r.displayDefect with
    | some d => (acc.1 + (if d.testCompleted then 100 else 0), acc.2 + 1)
    | none => acc
  let acc : ℤ × ℤ := match r.proximitySensor with
    | some p => (acc.1 + (if p.success then 100 else 0), acc.2 + 1)
    | none => acc
  if acc.2 > 0 then ratRound ((acc.1 : ℚ) / (acc.2 : ℚ)) else 0

/-- The 0–100 scores of the categories present in a suite result, in the
order the report folds them. -/
def categoryScores (r : TestSuiteResult) : List ℤ :=
  (r.touchscreen.map touchCategoryScore).toList ++
  (r.displayDefect.map (fun d => if d.testCompleted then 100 else 0)).toList ++
  (r.proximitySensor.map (fun p => if p.success then 100 else 0)).toList

/-- Modelled from the claim's words (claim C2): the touchscreen
category's score as the unweighted mean of its sub-accuracies.  Used only
to compare the claim's scoring rule with the code's. -/
def claimTouchCategoryScore (t : EnhancedTouchTestResult) : ℚ :=
  (t.squareTracing.accuracy + t.circleTracing.accuracy) / 2

end Robothon.DiagnosticReport

namespace Robothon.DiagnosticReport

/-- Claim C2 (amended): the report's overall composite score is the
*rounded* unweighted mean, over the categories present in the suite
result, of each category's 0–100 score — where the touchscreen category
scores 20 points for each of its five passed criteria (multi-touch,
response time < 100 ms, ≥ 2 simultaneous touches, square accuracy ≥ 70,
circle accuracy ≥ 70), not the mean of its sub-accuracies — and each
binary test contributes 100 when passed and 0 when failed. -/
theorem C2_calculateOverallScore_spec (r : TestSuiteResult) :
    (categoryScores r = [] → calculateOverallScore r = 0) ∧
    (categoryScores r ≠ [] →
      calculateOverallScore r =
        ratRound (((categoryScores r).sum : ℚ) /
          ((categoryScores r).length : ℚ))) := by
  rcases r with ⟨t, d, p⟩
  constructor
  · intro h
    cases t <;> cases d <;> cases p <;>
      simp [categoryScores] at h <;>
      simp [calculateOverallScore]
  · intro h
    cases t <;> cases d <;> cases p <;>
      norm_num [calculateOverallScore, categoryScores] at h ⊢ <;>
      norm_num [add_assoc, add_comm, add_left_comm]

end Robothon.DiagnosticReport

namespace Robothon.DiagnosticReport

/-- A touchscreen run with perfect tracing accuracies but failing basic
metrics (no multi-touch, 200 ms response time, one simultaneous touch). -/
def slowPerfectTracingTouch : EnhancedTouchTestResult :=
  { basicTouch :=
      { multiTouchSupported := false
        maxSimultaneousTouches := 1
        averageResponseTime := 200
        totalTouches := 0
        testDuration := 10000
        touchPoints := [] }
    squareTracing :=
      { shape := "square", accuracy := 100, completionTime := 5000
        tracePoints := [], totalDistance := 0, deviationScore := 100 }
    circleTracing :=
      { shape := "circle", accuracy := 100, completionTime := 5000
        tracePoints := [], totalDistance := 0, deviationScore := 100 }
    overallScore := 100 }

/-- A suite result containing only the touchscreen category above. -/
def touchOnlySuite : TestSuiteResult :=
  { touchscreen := some slowPerfectTracingTouch
    displayDefect := none
    proximitySensor := none }

/-- Witness for `C2_calculateOverallScore_spec` at the concrete
touchscreen-only suite: the rounded mean over the single present
category. -/
theorem C2_calculateOverallScore_spec_witness :
    calculateOverallScore touchOnlySuite =
      ratRound (((categoryScores touchOnlySuite).sum : ℚ) /
        ((categoryScores touchOnlySuite).length : ℚ)) :=
  (C2_calculateOverallScore_spec touchOnlySuite).2 (by
    norm_num [categoryScores, touchOnlySuite])

/-- Claim C2 counterexample: for the touchscreen-only suite whose two
tracing accuracies are both 100 but whose basic metrics all fail, the
code scores the touchscreen category 40 (two of five 20-point criteria),
hence overall 40, while the claim's "unweighted mean of its
sub-accuracies" rule prescribes 100. -/
theorem C2_counterexample :
    calculateOverallScore touchOnlySuite = 40 ∧
    claimTouchCategoryScore slowPerfectTracingTouch = 100 := by
  constructor
  · norm_num [calculateOverallScore, touchOnlySuite, touchCategoryScore,
      slowPerfectTracingTouch, ratRound]
  · norm_num [claimTouchCategoryScore, slowPerfectTracingTouch]

end Robothon.DiagnosticReport

namespace Robothon.EnhancedTouchscreenTest

/-- `EnhancedTouchTestResult` of the enhanced touchscreen test (the
variant whose second tracing is `diamondTracing`). -/
structure EnhancedTouchTestResult where
  basicTouch : TouchTestResult
  squareTracing : ShapeTracingResult
  diamondTracing : ShapeTracingResult
  overallScore : ℤ
  deriving DecidableEq, Repr

/-- `calculateOverallScore` of the enhanced touchscreen test: the rounded
average of the square and diamond tracing accuracies. -/
def calculateOverallScore (square diamond : ShapeTracingResult) : ℤ :=
  ratRound ((square.accuracy + diamond.accuracy) / 2)

/-- The `dummyBasicTouch` constant created "for compatibility" in
`handleDiamondTracingComplete`. -/
def dummyBasicTouch : TouchTestResult :=
  { multiTouchSupported := true
    maxSimultaneousTouches := 2
    averageResponseTime := 50
    totalTouches := 20
    testDuration := 10000
    touchPoints := [] }

/-- The final result assembled by `handleDiamondTracingComplete` once
both tracings are available: the dummy basic-touch block, the two tracing
results, and the overall score computed from them alone. -/
def handleDiamondTracingComplete (squareTracingResult result : ShapeTracingResult) :
    EnhancedTouchTestResult :=
  { basicTouch := dummyBasicTouch
    squareTracing := squareTracingResult
    diamondTracing := result
    overallScore := calculateOverallScore squareTracingResult result }

/-- Claim C3: the composite touch result's `overallScore` is the rounded
unweighted mean of the two shape-tracing accuracies, and it depends on
nothing else — two pairs of tracing results with the same accuracies get
the same overall score, so the basic multi-touch/response-time block
(which `handleDiamondTracingComplete` does not even consult) contributes
nothing. -/
theorem C3_overallScore_mean_of_tracings
    (square diamond square2 diamond2 : ShapeTracingResult)
    (hsq : square.accuracy = square2.accuracy)
    (hdi : diamond.accuracy = diamond2.accuracy) :
    (handleDiamondTracingComplete square diamond).overallScore =
      ratRound ((square.accuracy + diamond.accuracy) / 2) ∧
    (handleDiamondTracingComplete square diamond).overallScore =
      (handleDiamondTracingComplete square2 diamond2).overallScore := by
  refine ⟨rfl, ?_⟩
  simp [handleDiamondTracingComplete, calculateOverallScore, hsq, hdi]

/-- A perfectly accurate square tracing result. -/
def squareTracing100 : ShapeTracingResult :=
  { shape := "square", accuracy := 100, completionTime := 4000
    tracePoints := [], totalDistance := 720, deviationScore := 100 }

/-- A diamond tracing result with accuracy 91. -/
def diamondTracing91 : ShapeTracingResult :=
  { shape := "diamond", accuracy := 91, completionTime := 6000
    tracePoints := [], totalDistance := 500, deviationScore := 91 }

/-- The same accuracies carried by results that differ in every other
field. -/
def squareTracing100b : ShapeTracingResult :=
  { shape := "square", accuracy := 100, completionTime := 900
    tracePoints := [⟨0, 0, 0⟩], totalDistance := 1, deviationScore := 0 }

/-- Diamond twin of `squareTracing100b` with accuracy 91. -/
def diamondTracing91b : ShapeTracingResult :=
  { shape := "diamond", accuracy := 91, completionTime := 800
    tracePoints := [⟨1, 1, 1⟩], totalDistance := 2, deviationScore := 0 }

/-- Witness for `C3_overallScore_mean_of_tracings`: with accuracies 100
and 91 the overall score is `round(95.5) = 96`, for either carrier. -/
theorem C3_overallScore_mean_of_tracings_witness :
    (handleDiamondTracingComplete squareTracing100 diamondTracing91).overallScore =
      ratRound ((squareTracing100.accuracy + diamondTracing91.accuracy) / 2) ∧
    (handleDiamondTracingComplete squareTracing100 diamondTracing91).overallScore =
      (handleDiamondTracingComplete squareTracing100b diamondTracing91b).overallScore :=
  C3_overallScore_mean_of_tracings squareTracing100 diamondTracing91
    squareTracing100b diamondTracing91b rfl rfl

/-- Claim C7: every composite result delivered by
`handleDiamondTracingComplete` carries the fixed `dummyBasicTouch`
constant — multi-touch supported, 2 simultaneous touches, 50 ms response
time, 20 touches, 10 s duration, no touch points — independent of the
tracing inputs. -/
theorem C7_basicTouch_is_dummy (square diamond : ShapeTracingResult) :
    (handleDiamondTracingComplete square diamond).basicTouch =
      { multiTouchSupported := true
        maxSimultaneousTouches := 2
        averageResponseTime := 50
        totalTouches := 20
        testDuration := 10000
        touchPoints := [] } := rfl

end Robothon.EnhancedTouchscreenTest

namespace Robothon

/-- Stepper step status string-enum (`stepper.tsx`). -/
inductive StepStatus where
  | pending
  | active
  | completed
  | error
  deriving DecidableEq, Repr

/-- Stepper step descriptor (`stepper.tsx`). -/
structure Step where
  id : String
  title : String
  description : String
  deriving DecidableEq, Repr

end Robothon

namespace Robothon.TestSuite

/-- The ordered step list of `test-suite.tsx` (the four-step robotic
variant). -/
def testSteps : List Step :=
  [⟨"touchscreen", "Touch Screen", "Test touch responsiveness without scrolling"⟩,
   ⟨"display", "Display Defect", "RGB color analysis by robot camera"⟩,
   ⟨"proximity", "Proximity Sensor", "Test proximity sensor activation"⟩,
   ⟨"report", "Report", "Generate comprehensive diagnostic report"⟩]

/-- `testSteps[i]` (only read at indices the guards keep in range). -/
def stepAt (i : ℕ) : Step := testSteps.getD i ⟨"", "", ""⟩

/-- Suite result of the four-step suite; the touchscreen entry is the
diamond-variant composite result. -/
structure TestSuiteResult where
  touchscreen : Option EnhancedTouchscreenTest.EnhancedTouchTestResult
  displayDefect : Option DisplayDefectResult
  proximitySensor : Option ProximitySensorResult
  deriving DecidableEq, Repr

/-- `Object.keys(results).length > 0`: at least one category recorded. -/
def resultsNonempty (r : TestSuiteResult) : Bool :=
  r.touchscreen.isSome || r.displayDefect.isSome || r.proximitySensor.isSome

/-- The React state of the `TestSuite` component: step index, step-status
mapping, recorded results, and the pause/run/wait flags. -/
structure SuiteState where
  currentStepIndex : ℕ
  stepStatuses : List (String × StepStatus)
  results : TestSuiteResult
  isPaused : Bool
  isRunning : Bool
  isWaitingForRobot : Bool
  waitingForTest : String
  deriving DecidableEq, Repr

/-- The record-spread update `{...prev, [stepId]: status}` on the status
mapping, as an association list keyed by step id. -/
def setStatus (m : List (String × StepStatus)) (stepId : String)
    (status : StepStatus) : List (String × StepStatus) :=
  (m.filter fun kv => kv.1 != stepId) ++ [(stepId, status)]

/-- `updateStepStatus` of the component. -/
def updateStepStatus (s : SuiteState) (stepId : String) (status : StepStatus) :
    SuiteState :=
  { s with stepStatuses := setStatus s.stepStatuses stepId status }

/-- The component's initial state. -/
def initialState : SuiteState :=
  { currentStepIndex := 0
    stepStatuses := []
    results := ⟨none, none, none⟩
    isPaused := false
    isRunning := false
    isWaitingForRobot := false
    waitingForTest := "" }

/-- `handleStartTest`. -/
def handleStartTest (s : SuiteState) : SuiteState :=
  updateStepStatus
    { s with isRunning := true, currentStepIndex := 0, stepStatuses := [],
             results := ⟨none, none, none⟩ }
    "touchscreen" StepStatus.active

/-- `handleTouchscreenComplete` (the 1 s `setTimeout` advance is taken
atomically). -/
def handleTouchscreenComplete
    (result : EnhancedTouchscreenTest.EnhancedTouchTestResult)
    (s : SuiteState) : SuiteState :=
  let s1 := { s with results := { s.results with touchscreen := some result } }
  let s2 := updateStepStatus s1 "touchscreen" StepStatus.completed
  let s3 := { s2 with currentStepIndex := 1 }
  updateStepStatus s3 "display" StepStatus.active

/-- `handleDisplayDefectComplete`: record, mark completed, then wait for
robot confirmation under the key `displayDefect`. -/
def handleDisplayDefectComplete (result : DisplayDefectResult)
    (s : SuiteState) : SuiteState :=
  let s1 := { s with results := { s.results with displayDefect := some result } }
  let s2 := updateStepStatus s1 "display" StepStatus.completed
  { s2 with isWaitingForRobot := true, waitingForTest := "displayDefect" }

/-- `handleProximitySensorComplete`: record, mark completed, and advance
immediately to the report step (no confirmation wait). -/
def handleProximitySensorComplete (result : ProximitySensorResult)
    (s : SuiteState) : SuiteState :=
  let s1 := { s with results := { s.results with proximitySensor := some result } }
  let s2 := updateStepStatus s1 "proximity" StepStatus.completed
  let s3 := { s2 with currentStepIndex := 3 }
  updateStepStatus s3 "report" StepStatus.active

/-- `handleManualContinue`: stop waiting, then branch on the wait key. -/
def handleManualContinue (s : SuiteState) : SuiteState :=
  let s1 := { s with isWaitingForRobot := false }
  let s2 :=
    if s1.waitingForTest = "displayDefect" then
      updateStepStatus { s1 with currentStepIndex := 2 } "proximity"
        StepStatus.active
    else if s1.waitingForTest = "proximitySensor" then
      updateStepStatus { s1 with currentStepIndex := 3 } "report"
        StepStatus.completed
    else s1
  { s2 with waitingForTest := "" }

/-- The confirmation-subscription handler: a bus message triggers
`handleManualContinue` exactly when its payload is
`waitingForTest + "_confirmed"` (the subscription exists only while
`isWaitingForRobot`; `applyEvent` adds that guard). -/
def receiveConfirmation (data : String) (s : SuiteState) : SuiteState :=
  if data = s.waitingForTest ++ "_confirmed" then handleManualContinue s else s

/-- `handlePauseResume`. -/
def handlePauseResume (s : SuiteState) : SuiteState :=
  { s with isPaused := !s.isPaused }

/-- `handleSkipStep`: guarded only by `currentStepIndex <
testSteps.length - 1`; marks the current step completed, advances, and
marks the next step active when it is not the report step. -/
def handleSkipStep (s : SuiteState) : SuiteState :=
  if s.currentStepIndex < testSteps.length - 1 then
    let s1 := updateStepStatus s (stepAt s.currentStepIndex).id
      StepStatus.completed
    let s2 := { s1 with currentStepIndex := s.currentStepIndex + 1 }
    if s.currentStepIndex + 1 < testSteps.length - 1 then
      updateStepStatus s2 (stepAt (s.currentStepIndex + 1)).id StepStatus.active
    else s2
  else s

/-- `handleRetry`: reset index, statuses and results, set running, and
mark the first step active.  It does not touch `isWaitingForRobot` or
`waitingForTest`. -/
def handleRetry (s : SuiteState) : SuiteState :=
  updateStepStatus
    { s with currentStepIndex := 0, stepStatuses := [],
             results := ⟨none, none, none⟩, isRunning := true }
    "touchscreen" StepStatus.active

/-- The UI/bus events of the suite. -/
inductive Event where
  | start
  | touchscreenComplete (result : EnhancedTouchscreenTest.EnhancedTouchTestResult)
  | displayComplete (result : DisplayDefectResult)
  | proximityComplete (result : ProximitySensorResult)
  | manualContinue
  | confirmation (data : String)
  | pause
  | skip
  | retry
  | autoCompleteReport

/-- One step of the suite viewed as a state machine: `some s'` when the
event is available in state `s` (its originating control is rendered and
enabled, or its effect's condition holds), `none` otherwise. -/
def applyEvent : Event → SuiteState → Option SuiteState
  | .start, s =>
      if s.isRunning = false then some (handleStartTest s) else none
  | .touchscreenComplete r, s =>
      if s.isRunning = true ∧ s.isPaused = false ∧ s.isWaitingForRobot = false ∧
          ¬(s.currentStepIndex = 3 ∧ resultsNonempty s.results = true) ∧
          (stepAt s.currentStepIndex).id = "touchscreen" then
        some (handleTouchscreenComplete r s)
      else none
  | .displayComplete r, s =>
      if s.isRunning = true ∧ s.isPaused = false ∧ s.isWaitingForRobot = false ∧
          ¬(s.currentStepIndex = 3 ∧ resultsNonempty s.results = true) ∧
          (stepAt s.currentStepIndex).id = "display" then
        some (handleDisplayDefectComplete r s)
      else none
  | .proximityComplete r, s =>
      if s.isRunning = true ∧ s.isPaused = false ∧ s.isWaitingForRobot = false ∧
          ¬(s.currentStepIndex = 3 ∧ resultsNonempty s.results = true) ∧
          (stepAt s.currentStepIndex).id = "proximity" then
        some (handleProximitySensorComplete r s)
      else none
  | .manualContinue, s =>
      if s.isRunning = true ∧ s.isWaitingForRobot = true then
        some (handleManualContinue s)
      else none
  | .confirmation data, s =>
      if s.isWaitingForRobot = true then some (receiveConfirmation data s)
      else none
  | .pause, s =>
      if s.isRunning = true ∧ s.isWaitingForRobot = false ∧
          ¬(s.currentStepIndex = 3 ∧ resultsNonempty s.results = true) ∧
          s.currentStepIndex < 3 then
        some (handlePauseResume s)
      else none
  | .skip, s =>
      if s.isRunning = true ∧ s.isWaitingForRobot = false ∧
          ¬(s.currentStepIndex = 3 ∧ resultsNonempty s.results = true) ∧
          s.currentStepIndex < 3 then
        some (handleSkipStep s)
      else none
  | .retry, s =>
      if s.isRunning = true ∧ s.isWaitingForRobot = false ∧
          s.currentStepIndex = 3 ∧ resultsNonempty s.results = true then
        some (handleRetry s)
      else none
  | .autoCompleteReport, s =>
      if s.currentStepIndex = 3 ∧ resultsNonempty s.results = true then
        some (updateStepStatus s "report" StepStatus.completed)
      else none

/-- States reachable from the component's initial state. -/
inductive Reachable : SuiteState → Prop where
  | init : Reachable initialState
  | step (e : Event) (s s' : SuiteState) :
      Reachable s → applyEvent e s = some s' → Reachable s'

end Robothon.TestSuite

namespace Robothon.TestSuite

/-- `updateStepStatus` only touches the status mapping. -/
theorem updateStepStatus_waiting (s : SuiteState) (k : String) (v : StepStatus) :
    (updateStepStatus s k v).isWaitingForRobot = s.isWaitingForRobot ∧
    (updateStepStatus s k v).waitingForTest = s.waitingForTest := ⟨rfl, rfl⟩

/-- `handleStartTest` leaves the confirmation-wait fields unchanged. -/
theorem handleStartTest_waiting (s : SuiteState) :
    (handleStartTest s).isWaitingForRobot = s.isWaitingForRobot ∧
    (handleStartTest s).waitingForTest = s.waitingForTest := ⟨rfl, rfl⟩

/-- `handleTouchscreenComplete` leaves the wait fields unchanged. -/
theorem handleTouchscreenComplete_waiting
    (r : EnhancedTouchscreenTest.EnhancedTouchTestResult) (s : SuiteState) :
    (handleTouchscreenComplete r s).isWaitingForRobot = s.isWaitingForRobot ∧
    (handleTouchscreenComplete r s).waitingForTest = s.waitingForTest :=
  ⟨rfl, rfl⟩

/-- `handleDisplayDefectComplete` enters the wait with key
`displayDefect`. -/
theorem handleDisplayDefectComplete_waiting (r : DisplayDefectResult)
    (s : SuiteState) :
    (handleDisplayDefectComplete r s).isWaitingForRobot = true ∧
    (handleDisplayDefectComplete r s).waitingForTest = "displayDefect" :=
  ⟨rfl, rfl⟩

/-- `handleProximitySensorComplete` leaves the wait fields unchanged and
jumps straight to the report step. -/
theorem handleProximitySensorComplete_waiting (r : ProximitySensorResult)
    (s : SuiteState) :
    (handleProximitySensorComplete r s).isWaitingForRobot =
      s.isWaitingForRobot ∧
    (handleProximitySensorComplete r s).waitingForTest = s.waitingForTest ∧
    (handleProximitySensorComplete r s).currentStepIndex = 3 :=
  ⟨rfl, rfl, rfl⟩

/-- `handleManualContinue` always ends the wait and clears the key. -/
theorem handleManualContinue_waiting (s : SuiteState) :
    (handleManualContinue s).isWaitingForRobot = false ∧
    (handleManualContinue s).waitingForTest = "" := by
  unfold handleManualContinue
  dsimp only
  constructor
  · split
    · rfl
    · split <;> rfl
  · rfl

/-- `handlePauseResume` leaves the wait fields unchanged. -/
theorem handlePauseResume_waiting (s : SuiteState) :
    (handlePauseResume s).isWaitingForRobot = s.isWaitingForRobot ∧
    (handlePauseResume s).waitingForTest = s.waitingForTest := ⟨rfl, rfl⟩

/-- `handleSkipStep` leaves the wait fields unchanged. -/
theorem handleSkipStep_waiting (s : SuiteState) :
    (handleSkipStep s).isWaitingForRobot = s.isWaitingForRobot ∧
    (handleSkipStep s).waitingForTest = s.waitingForTest := by
  unfold handleSkipStep
  dsimp only
  constructor <;> (split; · split <;> rfl
                   · rfl)

/-- `handleRetry` leaves the wait fields unchanged: the pending
confirmation wait is not cancelled. -/
theorem handleRetry_waiting (s : SuiteState) :
    (handleRetry s).isWaitingForRobot = s.isWaitingForRobot ∧
    (handleRetry s).waitingForTest = s.waitingForTest := ⟨rfl, rfl⟩

/-- In every reachable state, a pending confirmation wait can only carry
the key `displayDefect`. -/
theorem reachable_waitKey (s : SuiteState) (h : Reachable s) :
    s.isWaitingForRobot = true → s.waitingForTest = "displayDefect" := by
  induction h with
  | init => intro hw; exact absurd hw (by simp [initialState])
  | step e s s' _ happ ih =>
      cases e with
      | start =>
          rw [applyEvent] at happ
          split at happ
          · cases happ
            intro hw
            rw [(handleStartTest_waiting s).2]
            exact ih (((handleStartTest_waiting s).1).symm.trans hw)
          · cases happ
      | touchscreenComplete r =>
          rw [applyEvent] at happ
          split at happ
          · cases happ
            intro hw
            rw [(handleTouchscreenComplete_waiting r s).2]
            exact ih (((handleTouchscreenComplete_waiting r s).1).symm.trans hw)
          · cases happ
      | displayComplete r =>
          rw [applyEvent] at happ
          split at happ
          · cases happ
            intro _
            exact (handleDisplayDefectComplete_waiting r s).2
          · cases happ
      | proximityComplete r =>
          rw [applyEvent] at happ
          split at happ
          · cases happ
            intro hw
            rw [(handleProximitySensorComplete_waiting r s).2.1]
            exact ih
              (((handleProximitySensorComplete_waiting r s).1).symm.trans hw)
          · cases happ
      | manualContinue =>
          rw [applyEvent] at happ
          split at happ
          · cases happ
            intro hw
            exact absurd ((handleManualContinue_waiting s).1.symm.trans hw)
              (by simp)
          · cases happ
      | confirmation data =>
          rw [applyEvent] at happ
          split at happ
          · cases happ
            unfold receiveConfirmation
            split
            · intro hw
              exact absurd ((handleManualContinue_waiting s).1.symm.trans hw)
                (by simp)
            · exact ih
          · cases happ
      | pause =>
          rw [applyEvent] at happ
          split at happ
          · cases happ
            intro hw
            rw [(handlePauseResume_waiting s).2]
            exact ih (((handlePauseResume_waiting s).1).symm.trans hw)
          · cases happ
      | skip =>
          rw [applyEvent] at happ
          split at happ
          · cases happ
            intro hw
            rw [(handleSkipStep_waiting s).2]
            exact ih (((handleSkipStep_waiting s).1).symm.trans hw)
          · cases happ
      | retry =>
          rw [applyEvent] at happ
          split at happ
          · cases happ
            intro hw
            rw [(handleRetry_waiting s).2]
            exact ih (((handleRetry_waiting s).1).symm.trans hw)
          · cases happ
      | autoCompleteReport =>
          rw [applyEvent] at happ
          split at happ
          · cases happ
            intro hw
            rw [(updateStepStatus_waiting s "report" StepStatus.completed).2]
            exact ih
              (((updateStepStatus_waiting s "report"
                StepStatus.completed).1).symm.trans hw)
          · cases happ

end Robothon.TestSuite

namespace Robothon.TestSuite

/-- Entries filtered away by `setStatus` cannot be looked up. -/
theorem lookup_filter_ne (k : String) (m : List (String × StepStatus)) :
    (m.filter fun kv => kv.1 != k).lookup k = none := by
  induction m with
  | nil => rfl
  | cons a t ih =>
      by_cases h : a.1 = k
      · simp [List.filter_cons, h, ih]
      · have hk : (k == a.1) = false := beq_eq_false_iff_ne.mpr (Ne.symm h)
        simp [List.filter_cons, h, List.lookup, hk, ih]

/-- Lookup skips a prefix in which the key does not occur. -/
theorem lookup_none_append (l1 l2 : List (String × StepStatus)) (k : String)
    (h : l1.lookup k = none) : (l1 ++ l2).lookup k = l2.lookup k := by
  induction l1 with
  | nil => rfl
  | cons a t ih =>
      cases hk : (k == a.1) with
      | true =>
          exact absurd h (by simp [List.lookup, hk])
      | false =>
          rw [List.cons_append]
          simp only [List.lookup, hk] at h ⊢
          exact ih h

/-- `setStatus` records the given status under the given key. -/
theorem lookup_setStatus_self (m : List (String × StepStatus)) (k : String)
    (v : StepStatus) : (setStatus m k v).lookup k = some v := by
  unfold setStatus
  rw [lookup_none_append _ _ _ (lookup_filter_ne k m)]
  simp [List.lookup]

/-- `setStatus` leaves other keys' statuses unchanged. -/
theorem lookup_setStatus_other (m : List (String × StepStatus))
    (k k' : String) (v : StepStatus) (h : k ≠ k') :
    (setStatus m k' v).lookup k = m.lookup k := by
  have hkk : (k == k') = false := beq_eq_false_iff_ne.mpr h
  unfold setStatus
  induction m with
  | nil => simp [List.lookup, hkk]
  | cons a t ih =>
      by_cases ha : a.1 = k'
      · have hka : (k == a.1) = false := by rw [ha]; exact hkk
        rw [List.filter_cons, if_neg (by simp [ha])]
        rw [show List.lookup k (a :: t) = List.lookup k t by
          simp [List.lookup, hka]]
        exact ih
      · have hfa : (a.1 != k') = true := by simp [ha]
        rw [List.filter_cons, if_pos hfa, List.cons_append]
        cases hk : (k == a.1) with
        | true => simp [List.lookup, hk]
        | false =>
            simp only [List.lookup, hk]
            exact ih

end Robothon.TestSuite

namespace Robothon.TestSuite

/-- A concrete completed composite touch result used to drive the
machine. -/
def exTouchResult : EnhancedTouchscreenTest.EnhancedTouchTestResult :=
  { basicTouch := EnhancedTouchscreenTest.dummyBasicTouch
    squareTracing :=
      { shape := "square", accuracy := 90, completionTime := 9000
        tracePoints := [], totalDistance := 700, deviationScore := 90 }
    diamondTracing :=
      { shape := "diamond", accuracy := 80, completionTime := 9000
        tracePoints := [], totalDistance := 500, deviationScore := 80 }
    overallScore := 85 }

/-- A concrete display-defect result. -/
def exDisplayResult : DisplayDefectResult :=
  { testCompleted := true, duration := 5000, timestamp := 0 }

/-- The state reached by start → touchscreen complete → display-defect
complete: awaiting robot confirmation for `displayDefect`. -/
def waitingState : SuiteState :=
  handleDisplayDefectComplete exDisplayResult
    (handleTouchscreenComplete exTouchResult (handleStartTest initialState))

/-- `waitingState` is reachable. -/
theorem reachable_waitingState : Reachable waitingState := by
  have h1 : Reachable (handleStartTest initialState) :=
    Reachable.step Event.start _ _ Reachable.init rfl
  have h2 : Reachable
      (handleTouchscreenComplete exTouchResult (handleStartTest initialState)) :=
    Reachable.step (Event.touchscreenComplete exTouchResult) _ _ h1 rfl
  exact Reachable.step (Event.displayComplete exDisplayResult) _ _ h2 rfl

/-- Claim C10: in every reachable state, a pending confirmation wait
carries the key `displayDefect` (the wait is entered only by completing
the display-defect step); completing the proximity step jumps straight to
the report step without touching the wait flag; and whenever a
manual-continue (or matching confirmation) fires, it takes the
`displayDefect` branch — the `proximitySensor` branch is unreachable. -/
theorem C10_waiting_only_displayDefect (s : SuiteState) (h : Reachable s) :
    (s.isWaitingForRobot = true → s.waitingForTest = "displayDefect") ∧
    (∀ r : ProximitySensorResult,
        (handleProximitySensorComplete r s).currentStepIndex = 3 ∧
        (handleProximitySensorComplete r s).isWaitingForRobot =
          s.isWaitingForRobot) ∧
    (s.isWaitingForRobot = true →
        (handleManualContinue s).currentStepIndex = 2) := by
  refine ⟨reachable_waitKey s h, fun r => ⟨rfl, rfl⟩, ?_⟩
  intro hw
  have hk : s.waitingForTest = "displayDefect" := reachable_waitKey s h hw
  unfold handleManualContinue
  dsimp only
  rw [if_pos hk]
  rfl

/-- Witness for `C10_waiting_only_displayDefect` at the concrete
reachable awaiting state. -/
theorem C10_waiting_only_displayDefect_witness :
    waitingState.waitingForTest = "displayDefect" ∧
    (handleManualContinue waitingState).currentStepIndex = 2 :=
  ⟨(C10_waiting_only_displayDefect waitingState reachable_waitingState).1 rfl,
   (C10_waiting_only_displayDefect waitingState reachable_waitingState).2.2 rfl⟩

end Robothon.TestSuite

namespace Robothon.TestSuite

/-- Claim C4 (amended): `handleRetry` resets the machine — step 0, status
mapping holding only the first step as active, empty suite result,
running — but it does *not* cancel a pending confirmation wait: both
`isWaitingForRobot` and `waitingForTest` are left exactly as they were.
(In the rendered UI retry is only offered from the report view, where no
wait is pending.) -/
theorem C4_handleRetry_spec (s : SuiteState) :
    (handleRetry s).currentStepIndex = 0 ∧
    (handleRetry s).stepStatuses = [("touchscreen", StepStatus.active)] ∧
    (handleRetry s).results = ⟨none, none, none⟩ ∧
    (handleRetry s).isRunning = true ∧
    (handleRetry s).isWaitingForRobot = s.isWaitingForRobot ∧
    (handleRetry s).waitingForTest = s.waitingForTest :=
  ⟨rfl, rfl, rfl, rfl, rfl, rfl⟩

/-- Claim C4 counterexample: from the reachable awaiting-confirmation
state, (i) the retry event is not even offered by the UI; (ii) applying
the retry handler anyway resets the step index but leaves the wait
pending; and (iii) the `displayDefect_confirmed` bus message is then
still accepted and mutates the reset state, advancing it to step 2. -/
theorem C4_counterexample :
    applyEvent Event.retry waitingState = none ∧
    (handleRetry waitingState).currentStepIndex = 0 ∧
    (handleRetry waitingState).isWaitingForRobot = true ∧
    applyEvent (Event.confirmation "displayDefect_confirmed")
        (handleRetry waitingState) =
      some (handleManualContinue (handleRetry waitingState)) ∧
    (handleManualContinue (handleRetry waitingState)).currentStepIndex = 2 :=
  ⟨rfl, rfl, rfl, rfl, rfl⟩

/-- Claim C5 (amended): the skip event is available exactly while the
suite is running below the report step (index < 3) — including at the
mandatory first step, which is *not* rejected; when it fires it marks the
current step completed, advances one step, and records no result.  Above
the threshold the handler is a no-op. -/
theorem C5_handleSkipStep_spec (s : SuiteState) :
    (∀ s' : SuiteState, applyEvent Event.skip s = some s' →
      s.isRunning = true ∧ s.currentStepIndex < 3 ∧ s' = handleSkipStep s) ∧
    (s.currentStepIndex < testSteps.length - 1 →
      (handleSkipStep s).currentStepIndex = s.currentStepIndex + 1 ∧
      (handleSkipStep s).results = s.results ∧
      (handleSkipStep s).stepStatuses.lookup (stepAt s.currentStepIndex).id =
        some StepStatus.completed) ∧
    (¬ s.currentStepIndex < testSteps.length - 1 → handleSkipStep s = s) := by
  refine ⟨?_, ?_, ?_⟩
  · intro s' happ
    rw [applyEvent] at happ
    split at happ
    · next hc =>
        cases happ
        exact ⟨hc.1, hc.2.2.2, rfl⟩
    · cases happ
  · intro hlt
    unfold handleSkipStep
    rw [if_pos hlt]
    dsimp only
    by_cases h2 : s.currentStepIndex + 1 < testSteps.length - 1
    · rw [if_pos h2]
      refine ⟨rfl, rfl, ?_⟩
      simp only [updateStepStatus]
      rw [lookup_setStatus_other _ _ _ _ ?_, lookup_setStatus_self]
      have h3 : s.currentStepIndex < 2 := by
        have h4 : s.currentStepIndex + 1 < 3 := by simpa [testSteps] using h2
        omega
      interval_cases h : s.currentStepIndex <;> simp [stepAt, testSteps]
    · rw [if_neg h2]
      exact ⟨rfl, rfl, lookup_setStatus_self _ _ _⟩
  · intro hge
    unfold handleSkipStep
    rw [if_neg hge]

/-- Witness for `C5_handleSkipStep_spec`: skipping right after start
(step 0, the mandatory touchscreen step) advances to step 1, records
nothing, and marks the touchscreen step completed. -/
theorem C5_handleSkipStep_spec_witness :
    (handleSkipStep (handleStartTest initialState)).currentStepIndex =
      (handleStartTest initialState).currentStepIndex + 1 ∧
    (handleSkipStep (handleStartTest initialState)).results =
      (handleStartTest initialState).results ∧
    (handleSkipStep (handleStartTest initialState)).stepStatuses.lookup
        (stepAt (handleStartTest initialState).currentStepIndex).id =
      some StepStatus.completed :=
  (C5_handleSkipStep_spec (handleStartTest initialState)).2.1 (by decide)

/-- Claim C5 counterexample: in the state right after start — running, at
the mandatory first step — the skip button is enabled (`applyEvent`
accepts the event) and the skip is silently performed: the touchscreen
step is marked completed without a result and the machine advances to
step 1.  The claim's "rejected at the first step" is false of this
suite. -/
theorem C5_counterexample :
    (handleStartTest initialState).currentStepIndex = 0 ∧
    (handleStartTest initialState).isRunning = true ∧
    applyEvent Event.skip (handleStartTest initialState) =
      some (handleSkipStep (handleStartTest initialState)) ∧
    (handleSkipStep (handleStartTest initialState)).currentStepIndex = 1 ∧
    (handleSkipStep (handleStartTest initialState)).stepStatuses.lookup
        "touchscreen" = some StepStatus.completed ∧
    (handleSkipStep (handleStartTest initialState)).results =
      ⟨none, none, none⟩ :=
  ⟨rfl, rfl, rfl, rfl, rfl, rfl⟩

end Robothon.TestSuite

namespace Robothon.TouchscreenTest

/-- The pieces of `TouchscreenTest` state read by its result-emission
effect. -/
structure TouchTestState where
  isTestActive : Bool
  timeRemaining : ℤ
  touches : List TouchPoint
  maxSimultaneous : ℤ
  touchCount : ℤ
  responseTimes : List ℚ
  deriving DecidableEq, Repr

/-- The result-emission effect of `touchscreen-test.tsx`: a result is
built and delivered only when the test is inactive, the countdown has
reached zero, *and* `touches.length > 0`; the `averageResponseTime`
falls back to 0 when no response times were collected. -/
def emitResult (testDuration : ℤ) (s : TouchTestState) :
    Option TouchTestResult :=
  if s.isTestActive = false ∧ s.timeRemaining = 0 ∧ s.touches.length > 0 then
    some
      { multiTouchSupported := decide (s.maxSimultaneous > 1)
        maxSimultaneousTouches := s.maxSimultaneous
        averageResponseTime :=
          if s.responseTimes.length > 0 then
            s.responseTimes.sum / (s.responseTimes.length : ℚ)
          else 0
        totalTouches := s.touchCount
        testDuration := testDuration
        touchPoints := s.touches }
  else none

/-- Claim C6 (amended): when the window closes with zero touches recorded
the effect delivers *nothing* (the zero-average fallback is unreachable
there); a definitive result, with the mean (or fallback-zero) response
time, is delivered only when at least one touch was recorded. -/
theorem C6_emitResult_spec (d : ℤ) (s : TouchTestState) :
    (s.touches = [] → emitResult d s = none) ∧
    (s.isTestActive = false → s.timeRemaining = 0 → s.touches ≠ [] →
      emitResult d s = some
        { multiTouchSupported := decide (s.maxSimultaneous > 1)
          maxSimultaneousTouches := s.maxSimultaneous
          averageResponseTime :=
            if s.responseTimes.length > 0 then
              s.responseTimes.sum / (s.responseTimes.length : ℚ)
            else 0
          totalTouches := s.touchCount
          testDuration := d
          touchPoints := s.touches }) := by
  constructor
  · intro h
    unfold emitResult
    rw [if_neg]
    simp [h]
  · intro h1 h2 h3
    unfold emitResult
    rw [if_pos ⟨h1, h2, by simpa [List.length_pos] using h3⟩]

/-- The final state of a run with a single touch at the origin of the
window. -/
def oneTouchFinalState : TouchTestState :=
  { isTestActive := false
    timeRemaining := 0
    touches := [⟨0, 50, 60, 1000⟩]
    maxSimultaneous := 1
    touchCount := 1
    responseTimes := [0] }

/-- Witness for `C6_emitResult_spec` at the one-touch final state. -/
theorem C6_emitResult_spec_witness :
    emitResult 10000 oneTouchFinalState = some
      { multiTouchSupported := decide (oneTouchFinalState.maxSimultaneous > 1)
        maxSimultaneousTouches := oneTouchFinalState.maxSimultaneous
        averageResponseTime :=
          if oneTouchFinalState.responseTimes.length > 0 then
            oneTouchFinalState.responseTimes.sum /
              (oneTouchFinalState.responseTimes.length : ℚ)
          else 0
        totalTouches := oneTouchFinalState.touchCount
        testDuration := 10000
        touchPoints := oneTouchFinalState.touches } :=
  (C6_emitResult_spec 10000 oneTouchFinalState).2 rfl rfl
    (by simp [oneTouchFinalState])

/-- Claim C6 counterexample: in the zero-touch final state (inactive,
countdown at zero, no touches recorded) the emission effect delivers no
result at all, where the claim promises a definitive result with
`averageResponseTimeMs = 0`. -/
theorem C6_counterexample :
    emitResult 10000 ⟨false, 0, [], 0, 0, []⟩ = none := rfl

end Robothon.TouchscreenTest
